import Mathlib

/-!
Shallow embedding of the NPGR019 shadow-volume renderer (07-ShadowVolumes and
its spotlight variant): the scene data model, the per-frame GL command trace of
`Scene::Draw`, the instance/transform buffer updates, and the light-animation
curve, together with proofs of the specified properties.
-/

namespace ShadowVolumes

/-! ## RenderPass bitmask (scene.h lines 39-48) -/

namespace RenderPass

def DepthPass : Nat := 0x0001
def ShadowVolume : Nat := 0x0002
def DirectLight : Nat := 0x0004
def AmbientLight : Nat := 0x0008
def LightPass : Nat := 0x000c

end RenderPass

/-- Which uniform groups `Scene::UpdateProgramData` updates for a given render
pass (scene.cpp lines 244-265): the light position whenever the pass contains a
ShadowVolume or LightPass flag, and the view position + light color whenever the
pass contains a LightPass flag. -/
structure ProgramDataUpdates where
  lightPos : Bool
  viewPosAndLightColor : Bool
  deriving DecidableEq, Repr

def updateProgramDataFlags (renderPass : Nat) : ProgramDataUpdates :=
  { lightPos := (renderPass &&& (RenderPass.ShadowVolume ||| RenderPass.LightPass)) != 0
  , viewPosAndLightColor := (renderPass &&& RenderPass.LightPass) != 0 }

/-! ## Stencil operations of the shadow pass (scene.cpp lines 424-451) -/

inductive SOp where
  | keep
  | incrWrap
  | decrWrap
  deriving DecidableEq, Repr

/-- One `glStencilOpSeparate` configuration: action on stencil fail, depth
fail, and depth pass. -/
structure StencilOpsCfg where
  sfail : SOp
  dfail : SOp
  dpass : SOp
  deriving DecidableEq, Repr

/-- Stencil operations installed for back faces by the shadow pass
(scene.cpp lines 432-445). -/
def shadowStencilBack (carmackReverse : Bool) : StencilOpsCfg :=
  if carmackReverse then ⟨.keep, .incrWrap, .keep⟩ else ⟨.keep, .keep, .decrWrap⟩

/-- Stencil operations installed for front faces by the shadow pass
(scene.cpp lines 432-445). -/
def shadowStencilFront (carmackReverse : Bool) : StencilOpsCfg :=
  if carmackReverse then ⟨.keep, .decrWrap, .keep⟩ else ⟨.keep, .keep, .incrWrap⟩

/-! ## Instance data staging (scene.h lines 57-58, scene.cpp lines 214-242) -/

def MAX_INSTANCES : Nat := 1024

/-- Byte size of one `InstanceData` entry: a transposed `glm::mat3x4`
(3 columns × 4 rows of 4-byte floats). -/
def sizeofFloat : Nat := 4

def sizeofMat3x4 : Nat := 3 * 4 * sizeofFloat

def sizeofMat4x4 : Nat := 4 * 4 * sizeofFloat

def sizeofInstanceData : Nat := sizeofMat3x4

/-- The staging-array indices written by the cube loop of
`Scene::UpdateInstanceData` (scene.cpp lines 222-230): `instanceData[i]` for
`0 ≤ i < _numCubes`.  The staging vector holds exactly `MAX_INSTANCES`
entries, so an index `≥ MAX_INSTANCES` is an out-of-bounds write. -/
def updateInstanceWriteIndices (numCubes : Nat) : List Nat :=
  List.range numCubes

/-- Number of bytes copied by the `memcpy` into the mapped GPU region
(scene.cpp line 237): `_numCubes * sizeof(InstanceData)`. -/
def updateInstanceCopyBytes (numCubes : Nat) : Nat :=
  numCubes * sizeofInstanceData

/-! ## Transform block writes (scene.cpp lines 267-287) -/

/-- The two `glBufferSubData` byte ranges (offset, size) issued by
`Scene::UpdateTransformBlock`: the transposed world-to-view matrix at offset 0
and the projection matrix at offset `sizeof(glm::mat3x4)`. -/
def updateTransformBlockWrites : List (Nat × Nat) :=
  [(0, sizeofMat3x4), (sizeofMat3x4, sizeofMat4x4)]

/-! ## GL command trace of the classic pipeline

Every OpenGL call performed on the `Scene::Draw` code path (scene.cpp lines
194-511) is translated to one `GLCmd`.  Shader programs, buffers, VAOs and
drawn geometries are named constants rather than numeric handles. -/

inductive ShaderProg where
  | default
  | instancing
  | defaultDepthPass
  | instancingDepthPass
  | instancedShadowVolume
  | pointRendering
  deriving DecidableEq, Repr

inductive BufHandle where
  | null
  | instancing
  | transformBlock
  deriving DecidableEq, Repr

inductive VAOHandle where
  | null
  | generic
  | quad
  | cube
  | cubeAdjacency
  deriving DecidableEq, Repr

inductive Geom where
  | quad
  | cubeTriangles
  | cubeAdjacency
  | point
  deriving DecidableEq, Repr

inductive Cap where
  | cullFace
  | stencilTest
  | blend
  | depthTest
  | depthClamp
  | multisample
  deriving DecidableEq, Repr

inductive StencilFn where
  | always
  | equal
  deriving DecidableEq, Repr

inductive FaceSel where
  | front
  | back
  deriving DecidableEq, Repr

inductive GLCmd where
  | enable (c : Cap)
  | disable (c : Cap)
  | cullFaceBack
  | polygonMode (wireframe : Bool)
  | depthFuncLEqual
  | clearColor
  | clear (color depth stencil : Bool)
  | colorMask (r g b a : Bool)
  | depthMask (m : Bool)
  | stencilFunc (fn : StencilFn) (ref mask : Nat)
  | stencilOp (sfail dfail dpass : SOp)
  | stencilOpSep (face : FaceSel) (cfg : StencilOpsCfg)
  | blendEquationAdd
  | blendFuncOneOne
  | useProgram (p : ShaderProg)
  | bindBufferBase (slot : Nat) (buf : BufHandle)
  | bindBuffer (buf : BufHandle)
  | bufferSubData (offset size : Nat)
  | mapCopyInstances
  | bindVertexArray (v : VAOHandle)
  | bindTextures
  | updateProgramData (renderPass : Nat)
  | updatePointUniforms
  | pointSize10
  | draw (g : Geom) (renderPass : Nat)
  deriving DecidableEq, Repr

/-- GL calls of `Scene::UpdateTransformBlock` (scene.cpp lines 267-287). -/
def updateTransformBlockCmds : List GLCmd :=
  [.bindBuffer .transformBlock]
    ++ updateTransformBlockWrites.map (fun w => .bufferSubData w.1 w.2)
    ++ [.bindBuffer .null]

/-- GL calls of `Scene::UpdateInstanceData` (scene.cpp lines 214-242): bind the
instancing buffer at slot 1, map it and copy the staged entries, unbind.  The
entries written and the byte count copied are modelled by
`updateInstanceWriteIndices` and `updateInstanceCopyBytes`. -/
def updateInstanceDataCmds : List GLCmd :=
  [.bindBufferBase 1 .instancing, .mapCopyInstances, .bindBufferBase 1 .null]

/-- GL calls of `Scene::DrawBackground` (scene.cpp lines 289-325): bind the
program, update its uniforms, bind material textures during light passes, and
draw the floor and two wall quads. -/
def drawBackgroundCmds (program : ShaderProg) (renderPass : Nat) : List GLCmd :=
  [.useProgram program, .updateProgramData renderPass]
    ++ (if renderPass &&& RenderPass.LightPass != 0 then [.bindTextures] else [])
    ++ [.bindVertexArray .quad,
        .draw .quad renderPass, .draw .quad renderPass, .draw .quad renderPass]

/-- GL calls of `Scene::DrawObjects` (scene.cpp lines 327-382): instanced cubes
(with adjacency topology during the shadow-volume pass), plus the point light
marker during the ambient pass. -/
def drawObjectsCmds (program : ShaderProg) (renderPass : Nat) : List GLCmd :=
  [.useProgram program, .updateProgramData renderPass, .bindBufferBase 1 .instancing]
    ++ (if renderPass &&& RenderPass.LightPass != 0 then [.bindTextures] else [])
    ++ (if renderPass &&& RenderPass.ShadowVolume != 0 then
          [.bindVertexArray .cubeAdjacency, .draw .cubeAdjacency renderPass]
        else
          [.bindVertexArray .cube, .draw .cubeTriangles renderPass])
    ++ [.bindBufferBase 1 .null]
    ++ (if renderPass &&& RenderPass.AmbientLight != 0 then
          [.useProgram .pointRendering, .updatePointUniforms, .disable .blend,
           .pointSize10, .bindVertexArray .generic, .draw .point renderPass]
        else [])

/-- The `depthPass` lambda of `Scene::Draw` (scene.cpp lines 391-396). -/
def depthPassCmds : List GLCmd :=
  drawBackgroundCmds .defaultDepthPass RenderPass.DepthPass
    ++ drawObjectsCmds .instancingDepthPass RenderPass.DepthPass

/-- The `lightPass` lambda of `Scene::Draw` (scene.cpp lines 401-419):
additive blending, stencil test for equality with 0, stencil kept unchanged. -/
def lightPassCmds (renderPass : Nat) : List GLCmd :=
  [.enable .blend, .blendEquationAdd, .blendFuncOneOne,
   .stencilFunc .equal 0x00 0xff, .stencilOp .keep .keep .keep]
    ++ drawBackgroundCmds .default renderPass
    ++ drawObjectsCmds .instancing renderPass
    ++ [.disable .blend]

/-- The `shadowPass` lambda of `Scene::Draw` (scene.cpp lines 424-451). -/
def shadowPassCmds (carmackReverse : Bool) : List GLCmd :=
  [.disable .cullFace, .stencilFunc .always 0x00 0xff,
   .stencilOpSep .back (shadowStencilBack carmackReverse),
   .stencilOpSep .front (shadowStencilFront carmackReverse)]
    ++ drawObjectsCmds .instancedShadowVolume RenderPass.ShadowVolume
    ++ [.enable .cullFace]

/-- The body of the per-light loop of `Scene::Draw` (scene.cpp lines 490-507). -/
def perLightCmds (carmackReverse : Bool) : List GLCmd :=
  [.clear false false true, .enable .stencilTest,
   .colorMask false false false false]
    ++ shadowPassCmds carmackReverse
    ++ [.colorMask true true true true]
    ++ lightPassCmds RenderPass.DirectLight
    ++ [.disable .stencilTest]
    ++ lightPassCmds RenderPass.AmbientLight

/-- GL state set-up of `Scene::Draw` before the depth pre-pass
(scene.cpp lines 455-483), ending with the color-write disable and the
depth pre-pass itself, followed by the depth-write disable (line 487). -/
def framePreambleCmds (msaa wireframe : Bool) : List GLCmd :=
  updateTransformBlockCmds
    ++ updateInstanceDataCmds
    ++ [(if msaa then .enable .multisample else .disable .multisample),
        .enable .cullFace, .cullFaceBack, .polygonMode wireframe,
        .enable .depthTest, .enable .depthClamp, .depthFuncLEqual,
        .depthMask true, .clearColor, .clear true true false,
        .colorMask false false false false]
    ++ depthPassCmds
    ++ [.depthMask false]

/-- The full GL command trace of `Scene::Draw` (scene.cpp lines 384-511),
parameterized by the light count, the render settings that affect GL state,
and the `carmackReverse` flag. -/
def drawCmds (numLights : Nat) (msaa wireframe carmackReverse : Bool) :
    List GLCmd :=
  framePreambleCmds msaa wireframe
    ++ (List.range numLights).flatMap (fun _ => perLightCmds carmackReverse)
    ++ [.colorMask true true true true]

/-- GL calls of `Scene::Init` that touch buffer bindings (scene.cpp lines
77-115): the instancing UBO is created and sized, then the transform UBO is
created, sized, and bound once at binding slot 0. -/
def initBufferCmds : List GLCmd :=
  [.bindBuffer .instancing, .bindBuffer .null,
   .bindBuffer .transformBlock, .bindBufferBase 0 .transformBlock,
   .bindBuffer .null]

/-! ## GL state interpreter

A small-step interpreter over the pieces of GL state the verified properties
talk about: capabilities, write masks, and the stencil configuration. -/

structure GLState where
  cull : Bool
  stencilTest : Bool
  blend : Bool
  depthTest : Bool
  depthClamp : Bool
  cmaskR : Bool
  cmaskG : Bool
  cmaskB : Bool
  cmaskA : Bool
  dmask : Bool
  sfn : StencilFn
  sref : Nat
  smask : Nat
  opsFront : StencilOpsCfg
  opsBack : StencilOpsCfg
  deriving DecidableEq, Repr

/-- GL default state at context creation: all capabilities disabled, all
writes enabled, stencil function ALWAYS with reference 0 and an all-ones mask
(8-bit stencil), all stencil operations KEEP. -/
def initialGLState : GLState :=
  { cull := false, stencilTest := false, blend := false
  , depthTest := false, depthClamp := false
  , cmaskR := true, cmaskG := true, cmaskB := true, cmaskA := true
  , dmask := true
  , sfn := .always, sref := 0, smask := 0xff
  , opsFront := ⟨.keep, .keep, .keep⟩, opsBack := ⟨.keep, .keep, .keep⟩ }

def setCap (s : GLState) (c : Cap) (v : Bool) : GLState :=
  match c with
  | .cullFace => { s with cull := v }
  | .stencilTest => { s with stencilTest := v }
  | .blend => { s with blend := v }
  | .depthTest => { s with depthTest := v }
  | .depthClamp => { s with depthClamp := v }
  | .multisample => s

def step (s : GLState) (c : GLCmd) : GLState :=
  match c with
  | .enable cap => setCap s cap true
  | .disable cap => setCap s cap false
  | .colorMask r g b a => { s with cmaskR := r, cmaskG := g, cmaskB := b, cmaskA := a }
  | .depthMask m => { s with dmask := m }
  | .stencilFunc fn ref mask => { s with sfn := fn, sref := ref, smask := mask }
  | .stencilOp sf df dp =>
      { s with opsFront := ⟨sf, df, dp⟩, opsBack := ⟨sf, df, dp⟩ }
  | .stencilOpSep face cfg =>
      match face with
      | .front => { s with opsFront := cfg }
      | .back => { s with opsBack := cfg }
  | _ => s

def runGL (s : GLState) (cs : List GLCmd) : GLState :=
  cs.foldl step s

/-- The trace of a command list: each command paired with the state in force
when it executes. -/
def statesBefore (s : GLState) : List GLCmd → List (GLState × GLCmd)
  | [] => []
  | c :: cs => (s, c) :: statesBefore (step s c) cs

/-- GL state in force right after the frame preamble (depth buffer primed,
color and depth writes disabled, culling on, stencil untouched). -/
def primedState : GLState :=
  { cull := true, stencilTest := false, blend := false
  , depthTest := true, depthClamp := true
  , cmaskR := false, cmaskG := false, cmaskB := false, cmaskA := false
  , dmask := false
  , sfn := .always, sref := 0, smask := 0xff
  , opsFront := ⟨.keep, .keep, .keep⟩, opsBack := ⟨.keep, .keep, .keep⟩ }

/-- GL state at the end of every per-light iteration: like `primedState` but
with color writes re-enabled and the light-pass stencil function in force. -/
def postLightState : GLState :=
  { cull := true, stencilTest := false, blend := false
  , depthTest := true, depthClamp := true
  , cmaskR := true, cmaskG := true, cmaskB := true, cmaskA := true
  , dmask := false
  , sfn := .equal, sref := 0, smask := 0xff
  , opsFront := ⟨.keep, .keep, .keep⟩, opsBack := ⟨.keep, .keep, .keep⟩ }

/-- Step check used for the per-light rendering order: a shadow-volume draw
executes with all color channels masked off, a direct-light draw executes with
color writes enabled and the stencil test enabled and set to pass only where
the stencil value equals 0, and an ambient-light draw executes with the
stencil test disabled. -/
def lightingDrawOk : GLState × GLCmd → Bool := fun x =>
  match x.2 with
  | .draw _ rp =>
      (rp &&& RenderPass.ShadowVolume == 0
        || (!x.1.cmaskR && !x.1.cmaskG && !x.1.cmaskB && !x.1.cmaskA))
      && (rp &&& RenderPass.DirectLight == 0
        || (x.1.cmaskR && x.1.cmaskG && x.1.cmaskB && x.1.cmaskA
            && x.1.stencilTest && x.1.sfn == .equal && x.1.sref == 0))
      && (rp &&& RenderPass.AmbientLight == 0 || !x.1.stencilTest)
  | _ => true

/-- Step check for the shadow-volume pass state: a shadow-volume draw executes
with the stencil function ALWAYS, face culling disabled, and color and depth
writes disabled; any light-pass draw executes with face culling enabled
again. -/
def shadowDrawOk : GLState × GLCmd → Bool := fun x =>
  match x.2 with
  | .draw _ rp =>
      (rp &&& RenderPass.ShadowVolume == 0
        || (x.1.sfn == .always && !x.1.cull && !x.1.cmaskR && !x.1.cmaskG
            && !x.1.cmaskB && !x.1.cmaskA && !x.1.dmask))
      && (rp &&& RenderPass.LightPass == 0 || x.1.cull)
  | _ => true

/-- A `glBindBufferBase(GL_UNIFORM_BUFFER, 0, …)` call: rebinding uniform
binding slot 0, where the transform block lives. -/
def isSlot0Bind : GLCmd → Bool := fun cmd =>
  match cmd with
  | .bindBufferBase 0 _ => true
  | _ => false

/-- A command that belongs to the per-light stencil/shadow/light iteration:
a stencil clear, a stencil-test enable, or a draw of a shadow-volume or
light pass. -/
def isLightLoopCmd : GLCmd → Bool := fun cmd =>
  match cmd with
  | .clear _ _ st => st
  | .enable .stencilTest => true
  | .draw _ rp =>
      rp &&& (RenderPass.ShadowVolume ||| RenderPass.LightPass) != 0
  | _ => false

/-- Step check for the depth pre-pass: every depth-pass draw executes with all
color channels masked off and depth writes enabled. -/
def depthDrawOk : GLState × GLCmd → Bool := fun x =>
  match x.2 with
  | .draw _ rp =>
      rp &&& RenderPass.DepthPass == 0
        || (!x.1.cmaskR && !x.1.cmaskG && !x.1.cmaskB && !x.1.cmaskA && x.1.dmask)
  | _ => true

/-! ## Scene data model: lights, cubes, and their initialization/animation

Real-valued shallow embedding of the scene state touched by `Scene::Init` and
`Scene::Update` (scene.cpp lines 60-192 and, for the spotlight variant, the
corresponding functions of its scene.cpp). -/

structure Vec3 where
  x : ℝ
  y : ℝ
  z : ℝ

structure Vec4 where
  x : ℝ
  y : ℝ
  z : ℝ
  w : ℝ

/-- Componentwise vector addition (glm `vec3 + vec3`). -/
def Vec3.add (a b : Vec3) : Vec3 := ⟨a.x + b.x, a.y + b.y, a.z + b.z⟩

/-- Componentwise vector product (glm `vec3 * vec3`). -/
def Vec3.mulV (a b : Vec3) : Vec3 := ⟨a.x * b.x, a.y * b.y, a.z * b.z⟩

/-- Scaling factor for the lights movement curve (scene.cpp line 17). -/
def scale : Vec3 := ⟨13, 2, 13⟩

/-- Offset for the lights movement curve (scene.cpp line 19). -/
def offset : Vec3 := ⟨0, 3, 0⟩

/-- Lissajous curve position (scene.cpp lines 22-25). -/
noncomputable def lissajous (p : Vec4) (t : ℝ) : Vec3 :=
  ⟨Real.sin (p.x * t), Real.cos (p.y * t), Real.sin (p.z * t) * Real.cos (p.w * t)⟩

/-- A point light (scene.h lines 74-82). -/
structure Light where
  position : Vec3
  color : Vec4
  movement : Vec4

/-- A spot light (scene.h lines 84-100). -/
structure SpotLight where
  position : Vec3
  color : Vec4
  movement : Vec4
  lightDirection : Vec3
  innerLightAngleDegrees : ℝ
  outerLightAngleDegrees : ℝ
  lightDistance : ℝ

/-- Per-light body of `Scene::Update` (scene.cpp lines 176-192): the first
light gets the special base offset with no scale, lights `1 ≤ i < _numLights`
follow `offset + lissajous(movement, t) * scale`, any further entries are left
untouched by the loop. -/
noncomputable def updateLightAt (numLights : Nat) (t : ℝ) (i : Nat) (L : Light) :
    Light :=
  if i = 0 then
    { L with position := Vec3.add ⟨-3, 2, 0⟩ (lissajous L.movement t) }
  else if i < numLights then
    { L with position := Vec3.add offset (Vec3.mulV (lissajous L.movement t) scale) }
  else L

/-- `Scene::Update` (scene.cpp lines 176-192) applied to the whole light
list. -/
noncomputable def sceneUpdate (numLights : Nat) (lights : List Light) (t : ℝ) :
    List Light :=
  lights.mapIdx (updateLightAt numLights t)

/-- Modelled from the spec: `getRandom(lo, hi)` lives in MathSupport.h, which
is not among the repository sources; per the spec it draws from a uniform
distribution within the documented range, so we model the raw draw as a value
`u` of the unit interval and `getRandom` as the affine map onto `[lo, hi]`. -/
def getRandom (lo hi : ℝ) (u : ℝ) : ℝ := lo + u * (hi - lo)

/-- Ambient intensity for the lights (scene.cpp line 136, spelling kept from
the source): `1e-3f / numLights`. -/
noncomputable def ambientIntentsity (numLights : Int) : ℝ :=
  (1 / 1000 : ℝ) / (numLights : ℝ)

/-- Position, color and movement of the first ("hero") light
(scene.cpp lines 140-141). -/
noncomputable def heroLight (numLights : Int) : Light :=
  { position := ⟨-3, 3, 0⟩
  , color := ⟨10, 10, 10, ambientIntentsity numLights⟩
  , movement := ⟨0, 1, 0, 0⟩ }

/-- Random cube position for cube `i = k + 1` (scene.cpp lines 124-131):
three consecutive draws, x ∈ [-5,5], y ∈ [1,5], z ∈ [-5,5]. -/
noncomputable def randomCube (rng : Nat → ℝ) (k : Nat) : Vec3 :=
  ⟨getRandom (-5) 5 (rng (3 * k)),
   getRandom 1 5 (rng (3 * k + 1)),
   getRandom (-5) 5 (rng (3 * k + 2))⟩

/-- Random light for light `i = k + 1` (scene.cpp lines 144-158): four
movement draws in [-2,2], three color draws in [0,5], position seeded from
the lissajous curve at `t = 0`.  `base` is the index of the first unconsumed
random draw after the cube loop. -/
noncomputable def randomLight (numLights : Int) (rng : Nat → ℝ) (base k : Nat) :
    Light :=
  let p : Vec4 :=
    ⟨getRandom (-2) 2 (rng (base + 7 * k)),
     getRandom (-2) 2 (rng (base + 7 * k + 1)),
     getRandom (-2) 2 (rng (base + 7 * k + 2)),
     getRandom (-2) 2 (rng (base + 7 * k + 3))⟩
  let c : Vec4 :=
    ⟨getRandom 0 5 (rng (base + 7 * k + 4)),
     getRandom 0 5 (rng (base + 7 * k + 5)),
     getRandom 0 5 (rng (base + 7 * k + 6)),
     ambientIntentsity numLights⟩
  { position := Vec3.add offset (Vec3.mulV (lissajous p 0) scale)
  , color := c
  , movement := p }

/-- The scene fields assigned by `Scene::Init` of the classic pipeline
(scene.h, scene.cpp lines 60-174).  GPU handles are abstracted to nonzero
tokens; texture contents live with an external collaborator and are tracked
as a readiness flag. -/
structure SceneState where
  vao : Nat
  numCubes : Int
  numLights : Int
  cubePositions : List Vec3
  lights : List Light
  instancingBuffer : Nat
  transformBlockUBO : Nat
  texturesReady : Bool

/-- `Scene::Init` of the classic pipeline (scene.cpp lines 60-174): returns
immediately when the generic VAO already exists, otherwise creates the GPU
objects, places the first cube half a meter above the origin plus random
cubes, and creates the hero light plus random lights.  `rng` is the stream of
unit-interval random draws consumed left to right. -/
noncomputable def sceneInit (numCubes numLights : Int) (rng : Nat → ℝ)
    (s : SceneState) : SceneState :=
  if s.vao ≠ 0 then s
  else
    { s with
      vao := 1
      numCubes := numCubes
      numLights := numLights
      instancingBuffer := 1
      transformBlockUBO := 1
      cubePositions :=
        ⟨0, 0.5, 0⟩ :: (List.range (numCubes - 1).toNat).map (randomCube rng)
      lights :=
        heroLight numLights ::
          (List.range (numLights - 1).toNat).map
            (randomLight numLights rng (3 * (numCubes - 1).toNat))
      texturesReady := true }

/-- A scene that has not been initialized: no VAO yet, no contents. -/
def freshScene : SceneState :=
  { vao := 0, numCubes := 10, numLights := 0, cubePositions := []
  , lights := [], instancingBuffer := 0, transformBlockUBO := 0
  , texturesReady := false }

/-- The scene fields assigned by `Scene::Init` of the spotlight variant
(scene.cpp of the spotlight variant, lines corresponding to 577-704). -/
structure SpotSceneState where
  vao : Nat
  numCubes : Int
  numPointLights : Int
  numSpotLights : Int
  cubePositions : List Vec3
  lights : List Light
  spotLights : List SpotLight
  instancingBuffer : Nat
  transformBlockUBO : Nat
  texturesReady : Bool

/-- The single spotlight created by the spotlight variant of `Scene::Init`. -/
noncomputable def initialSpotLight (numLights : Int) : SpotLight :=
  { position := ⟨-3, 2, 0⟩
  , color := ⟨10, 10, 10, ambientIntentsity numLights⟩
  , movement := ⟨2, 1, 1, 0⟩
  , lightDirection := ⟨0.5, -0.5, 0⟩
  , innerLightAngleDegrees := 30
  , outerLightAngleDegrees := 40
  , lightDistance := 5000 }

/-- `Scene::Init` of the spotlight variant: same early-return guard on the
generic VAO, one spotlight, and the point lights of the classic variant. -/
noncomputable def spotSceneInit (numCubes numLights : Int) (rng : Nat → ℝ)
    (s : SpotSceneState) : SpotSceneState :=
  if s.vao ≠ 0 then s
  else
    { s with
      vao := 1
      numCubes := numCubes
      numPointLights := numLights
      numSpotLights := 1
      instancingBuffer := 1
      transformBlockUBO := 1
      cubePositions :=
        ⟨0, 0.5, 0⟩ :: (List.range (numCubes - 1).toNat).map (randomCube rng)
      lights :=
        heroLight numLights ::
          (List.range (numLights - 1).toNat).map
            (randomLight numLights rng (3 * (numCubes - 1).toNat))
      spotLights := [initialSpotLight numLights]
      texturesReady := true }

/-- Sample lights used to instantiate the universally quantified theorems. -/
noncomputable def sampleLightA : Light :=
  { position := ⟨0, 0, 0⟩, color := ⟨1, 1, 1, 1⟩, movement := ⟨0, 1, 0, 0⟩ }

noncomputable def sampleLightB : Light :=
  { position := ⟨0, 0, 0⟩, color := ⟨1, 1, 1, 1⟩, movement := ⟨1, 2, 3, 4⟩ }

noncomputable def sampleLights : List Light :=
  [sampleLightA, sampleLightB]

/-- A sample already-initialized scene state. -/
def initializedScene : SceneState :=
  { vao := 3, numCubes := 5, numLights := 1
  , cubePositions := [⟨0, 0.5, 0⟩], lights := []
  , instancingBuffer := 1, transformBlockUBO := 2, texturesReady := true }

/-- A sample already-initialized spotlight scene state. -/
def initializedSpotScene : SpotSceneState :=
  { vao := 4, numCubes := 5, numPointLights := 1, numSpotLights := 1
  , cubePositions := [⟨0, 0.5, 0⟩], lights := [], spotLights := []
  , instancingBuffer := 1, transformBlockUBO := 2, texturesReady := true }


/-! ## Helper lemmas about the GL interpreter -/

theorem runGL_append (s : GLState) (xs ys : List GLCmd) :
    runGL s (xs ++ ys) = runGL (runGL s xs) ys := by
  simp [runGL, List.foldl_append]

theorem statesBefore_append (s : GLState) (xs ys : List GLCmd) :
    statesBefore s (xs ++ ys) = statesBefore s xs ++ statesBefore (runGL s xs) ys := by
  induction xs generalizing s with
  | nil => simp [statesBefore, runGL]
  | cons c cs ih => simp [statesBefore, runGL, List.foldl_cons, ih (step s c)]

/-- Running a block that maps `s₀` to `s₁` and fixes `s₁`, `n` times over,
lands in `s₁` for `n ≥ 1` (and in `s₀` for `n = 0`), and every traced pair
comes from the block started at `s₀` or at `s₁`. -/
theorem statesBefore_flatMap_const {P : GLState × GLCmd → Prop}
    (s₀ s₁ : GLState) (B : List GLCmd)
    (h₀ : runGL s₀ B = s₁) (h₁ : runGL s₁ B = s₁)
    (hP₀ : ∀ x ∈ statesBefore s₀ B, P x) (hP₁ : ∀ x ∈ statesBefore s₁ B, P x) :
    ∀ n, (∀ x ∈ statesBefore s₀ ((List.range n).flatMap (fun _ => B)), P x) ∧
      runGL s₀ ((List.range n).flatMap (fun _ => B)) = if n = 0 then s₀ else s₁ := by
  have aux : ∀ n, (∀ x ∈ statesBefore s₁ ((List.range n).flatMap (fun _ => B)), P x) ∧
      runGL s₁ ((List.range n).flatMap (fun _ => B)) = s₁ := by
    intro n
    induction n with
    | zero => simp [statesBefore, runGL]
    | succ m ih =>
        have hrange : (List.range (m + 1)).flatMap (fun _ => B)
            = B ++ (List.range m).flatMap (fun _ => B) := by
          have : List.range (m + 1) = 0 :: (List.range m).map Nat.succ := by
            simp [List.range_succ_eq_map]
          rw [this]
          simp [List.flatMap_cons, List.flatMap_map]
        constructor
        · intro x hx
          rw [hrange, statesBefore_append, h₁] at hx
          rcases List.mem_append.mp hx with h | h
          · exact hP₁ x h
          · exact ih.1 x h
        · rw [hrange, runGL_append, h₁, ih.2]
  intro n
  cases n with
  | zero => simp [statesBefore, runGL]
  | succ m =>
      have hrange : (List.range (m + 1)).flatMap (fun _ => B)
          = B ++ (List.range m).flatMap (fun _ => B) := by
        have : List.range (m + 1) = 0 :: (List.range m).map Nat.succ := by
          simp [List.range_succ_eq_map]
        rw [this]
        simp [List.flatMap_cons, List.flatMap_map]
      constructor
      · intro x hx
        rw [hrange, statesBefore_append, h₀] at hx
        rcases List.mem_append.mp hx with h | h
        · exact hP₀ x h
        · exact (aux m).1 x h
      · rw [hrange, runGL_append, h₀, (aux m).2]
        simp

theorem runGL_framePreamble (msaa wireframe : Bool) :
    runGL initialGLState (framePreambleCmds msaa wireframe) = primedState := by
  cases msaa <;> cases wireframe <;> decide

theorem runGL_perLight (carmackReverse : Bool) :
    runGL primedState (perLightCmds carmackReverse) = postLightState ∧
      runGL postLightState (perLightCmds carmackReverse) = postLightState := by
  cases carmackReverse <;> exact ⟨by decide, by decide⟩

/-- Every traced step of a full `Scene::Draw` frame satisfies `P`, given that
`P` holds throughout the preamble, throughout a per-light block started from
either reachable block-entry state, and on the final color-mask restore. -/
theorem all_statesBefore_drawCmds (P : GLState × GLCmd → Bool)
    (hpre : ∀ m w : Bool, ∀ x ∈ statesBefore initialGLState (framePreambleCmds m w),
      P x = true)
    (hblk₀ : ∀ c : Bool, ∀ x ∈ statesBefore primedState (perLightCmds c), P x = true)
    (hblk₁ : ∀ c : Bool, ∀ x ∈ statesBefore postLightState (perLightCmds c), P x = true)
    (hfin : ∀ s : GLState, P (s, .colorMask true true true true) = true) :
    ∀ (n : Nat) (m w c : Bool),
      (statesBefore initialGLState (drawCmds n m w c)).all P = true := by
  intro n m w c
  rw [List.all_eq_true]
  intro x hx
  have hmain := statesBefore_flatMap_const primedState postLightState (perLightCmds c)
    (runGL_perLight c).1 (runGL_perLight c).2 (hblk₀ c) (hblk₁ c) n
  rw [drawCmds, statesBefore_append, statesBefore_append, runGL_framePreamble] at hx
  rcases List.mem_append.mp hx with h | h
  · rcases List.mem_append.mp h with h' | h'
    · exact hpre m w x h'
    · exact hmain.1 x h'
  · rw [runGL_append, runGL_framePreamble, hmain.2] at h
    simp only [statesBefore, List.mem_singleton] at h
    rw [h]
    exact hfin _


/-! ## Helper lemmas: counting, random draws, curve bounds -/

theorem countP_flatMap_const (p : GLCmd → Bool) (B : List GLCmd) (n : Nat) :
    (((List.range n).flatMap fun _ => B).countP p) = n * B.countP p := by
  induction n with
  | zero => simp
  | succ m ih =>
      rw [List.range_succ, List.flatMap_append, List.countP_append, ih]
      simp [Nat.succ_mul]

theorem unit_mul_unit_mem (a b : ℝ) (ha : -1 ≤ a) (ha' : a ≤ 1)
    (hb : -1 ≤ b) (hb' : b ≤ 1) : -1 ≤ a * b ∧ a * b ≤ 1 := by
  constructor <;> nlinarith

theorem abs_unit_mul_le (a c : ℝ) (ha : -1 ≤ a) (ha' : a ≤ 1) (hc : 0 ≤ c) :
    |a * c| ≤ c := by
  rw [abs_mul, abs_of_nonneg hc]
  have h1 : |a| ≤ 1 := abs_le.mpr ⟨ha, ha'⟩
  nlinarith [abs_nonneg a]

theorem getRandom_mem (lo hi u : ℝ) (hlh : lo ≤ hi) (h0 : 0 ≤ u) (h1 : u ≤ 1) :
    lo ≤ getRandom lo hi u ∧ getRandom lo hi u ≤ hi := by
  unfold getRandom
  constructor <;> nlinarith

theorem lissajous_mem_Icc (p : Vec4) (t : ℝ) :
    (-1 ≤ (lissajous p t).x ∧ (lissajous p t).x ≤ 1)
    ∧ (-1 ≤ (lissajous p t).y ∧ (lissajous p t).y ≤ 1)
    ∧ (-1 ≤ (lissajous p t).z ∧ (lissajous p t).z ≤ 1) := by
  simp only [lissajous]
  exact ⟨⟨Real.neg_one_le_sin _, Real.sin_le_one _⟩,
    ⟨Real.neg_one_le_cos _, Real.cos_le_one _⟩,
    unit_mul_unit_mem _ _ (Real.neg_one_le_sin _) (Real.sin_le_one _)
      (Real.neg_one_le_cos _) (Real.cos_le_one _)⟩

theorem offset_scale_bound (l : Vec3)
    (hl : (-1 ≤ l.x ∧ l.x ≤ 1) ∧ (-1 ≤ l.y ∧ l.y ≤ 1) ∧ (-1 ≤ l.z ∧ l.z ≤ 1)) :
    |(Vec3.add offset (Vec3.mulV l scale)).x - offset.x| ≤ scale.x
    ∧ |(Vec3.add offset (Vec3.mulV l scale)).y - offset.y| ≤ scale.y
    ∧ |(Vec3.add offset (Vec3.mulV l scale)).z - offset.z| ≤ scale.z := by
  obtain ⟨⟨hx1, hx2⟩, ⟨hy1, hy2⟩, ⟨hz1, hz2⟩⟩ := hl
  simp only [Vec3.add, Vec3.mulV, offset, scale]
  refine ⟨?_, ?_, ?_⟩
  · simpa using abs_unit_mul_le l.x 13 hx1 hx2 (by norm_num)
  · simpa using abs_unit_mul_le l.y 2 hy1 hy2 (by norm_num)
  · simpa using abs_unit_mul_le l.z 13 hz1 hz2 (by norm_num)


/-! ## Claim theorems -/

/-- C1: In every frame rendered by `Scene::Draw` (classic pipeline), for each
light in order: the stencil buffer is cleared and the stencil test enabled,
then the shadow volume is rendered with color writes disabled, then the
direct-light contribution is rendered with color writes enabled and gated by
the stencil test (pass iff stencil = 0), then the stencil test is disabled
and the ambient contribution is rendered. -/
theorem scene_draw_per_light_sequence (numLights : Nat)
    (msaa wireframe carmackReverse : Bool) :
    drawCmds numLights msaa wireframe carmackReverse
      = framePreambleCmds msaa wireframe
        ++ (List.range numLights).flatMap (fun _ =>
              [GLCmd.clear false false true, GLCmd.enable .stencilTest,
               GLCmd.colorMask false false false false]
              ++ shadowPassCmds carmackReverse
              ++ [GLCmd.colorMask true true true true]
              ++ lightPassCmds RenderPass.DirectLight
              ++ [GLCmd.disable .stencilTest]
              ++ lightPassCmds RenderPass.AmbientLight)
        ++ [GLCmd.colorMask true true true true]
    ∧ (statesBefore initialGLState
        (drawCmds numLights msaa wireframe carmackReverse)).all lightingDrawOk
        = true := by
  constructor
  · rfl
  · exact all_statesBefore_drawCmds lightingDrawOk
      (by intro m w; cases m <;> cases w <;> decide)
      (by intro c; cases c <;> decide)
      (by intro c; cases c <;> decide)
      (fun _ => rfl)
      numLights msaa wireframe carmackReverse

/-- C2 counterexample: with `carmackReverse = false` (depth-pass convention)
the code does NOT increment on back faces and decrement on front faces on
depth pass, refuting the claim as stated. -/
theorem zpass_convention_claim_false :
    ¬ ((shadowStencilBack false).dpass = SOp.incrWrap
        ∧ (shadowStencilFront false).dpass = SOp.decrWrap) := by
  decide

/-- C2 (amended): when the depth-pass convention is selected
(`carmackReverse = false`), the shadow pass configures back faces to
DECREMENT the stencil value on depth-test pass and front faces to INCREMENT
it on depth-test pass (keeping it on stencil fail and depth fail), and emits
exactly these configurations. -/
theorem zpass_convention_ops :
    shadowStencilBack false = ⟨.keep, .keep, .decrWrap⟩
    ∧ shadowStencilFront false = ⟨.keep, .keep, .incrWrap⟩
    ∧ GLCmd.stencilOpSep .back ⟨.keep, .keep, .decrWrap⟩ ∈ shadowPassCmds false
    ∧ GLCmd.stencilOpSep .front ⟨.keep, .keep, .incrWrap⟩ ∈ shadowPassCmds false := by
  refine ⟨by decide, by decide, by decide, by decide⟩

/-- C3: for every cube count up to `MAX_INSTANCES`, `UpdateInstanceData`
writes exactly that many staging entries, all within the staging array
bounds, and copies exactly that many entries; but at the failing input
`MAX_INSTANCES + 1` the loop writes index `MAX_INSTANCES`, which is out of
bounds for the `MAX_INSTANCES`-sized staging vector — the code has no clamp
or assert. -/
theorem update_instance_data_write_extent :
    (∀ n : Fin (MAX_INSTANCES + 1),
        (updateInstanceWriteIndices n.val).length = n.val
        ∧ (updateInstanceWriteIndices n.val).all
            (fun i => decide (i < MAX_INSTANCES)) = true
        ∧ updateInstanceCopyBytes n.val = n.val * sizeofInstanceData)
    ∧ (updateInstanceWriteIndices (MAX_INSTANCES + 1)).length = MAX_INSTANCES + 1
    ∧ MAX_INSTANCES ∈ updateInstanceWriteIndices (MAX_INSTANCES + 1)
    ∧ ¬ MAX_INSTANCES < MAX_INSTANCES := by
  refine ⟨?_, List.length_range _, List.mem_range.mpr (by omega), by omega⟩
  intro n
  refine ⟨List.length_range _, ?_, rfl⟩
  rw [List.all_eq_true]
  intro i hi
  have h := List.mem_range.mp hi
  have h2 := n.isLt
  simp only [decide_eq_true_eq]
  omega

/-- C4: for every light with index `i ≥ 1` updated by `Scene::Update`, the
new position is `offset + lissajous(movement, t) * scale`, each component of
the lissajous curve lies in `[-1, 1]`, and per axis the distance of the
position from the offset is at most the corresponding scale component, for
every time `t`. -/
theorem lights_motion_bounded :
    (∀ (p : Vec4) (t : ℝ),
        (-1 ≤ (lissajous p t).x ∧ (lissajous p t).x ≤ 1)
        ∧ (-1 ≤ (lissajous p t).y ∧ (lissajous p t).y ≤ 1)
        ∧ (-1 ≤ (lissajous p t).z ∧ (lissajous p t).z ≤ 1))
    ∧ ∀ (numLights : Nat) (lights : List Light) (t : ℝ) (i : Nat) (L : Light),
        1 ≤ i → i < numLights → lights[i]? = some L →
          (sceneUpdate numLights lights t)[i]?
            = some { L with position :=
                       (Vec3.add offset (Vec3.mulV (lissajous L.movement t) scale)) }
          ∧ |(Vec3.add offset (Vec3.mulV (lissajous L.movement t) scale)).x
               - offset.x| ≤ scale.x
          ∧ |(Vec3.add offset (Vec3.mulV (lissajous L.movement t) scale)).y
               - offset.y| ≤ scale.y
          ∧ |(Vec3.add offset (Vec3.mulV (lissajous L.movement t) scale)).z
               - offset.z| ≤ scale.z := by
  refine ⟨lissajous_mem_Icc, ?_⟩
  intro numLights lights t i L h1 h2 hL
  have hlt : i < lights.length := by
    by_contra hge
    rw [List.getElem?_eq_none (by omega)] at hL
    exact Option.noConfusion hL
  have hLeq : lights.get ⟨i, hlt⟩ = L := by
    have := List.getElem?_eq_getElem hlt
    rw [this] at hL
    exact Option.some.inj hL
  have hlen : i < (sceneUpdate numLights lights t).length := by
    simpa [sceneUpdate, List.length_mapIdx] using hlt
  refine ⟨?_, offset_scale_bound _ (lissajous_mem_Icc _ t)⟩
  rw [List.getElem?_eq_getElem hlen]
  have hget := List.get_mapIdx lights (updateLightAt numLights t) i hlt hlen
  have hne : i ≠ 0 := by omega
  have hval : (sceneUpdate numLights lights t)[i]
      = (List.mapIdx (updateLightAt numLights t) lights).get ⟨i, hlen⟩ := rfl
  rw [hval, hget, hLeq, updateLightAt, if_neg hne, if_pos h2]

/-- C4 witness: the bound and update shape instantiated at a two-light scene
at time 0, light index 1. -/
theorem lights_motion_bounded_witness :
    ((-1 ≤ (lissajous ⟨0, 1, 0, 0⟩ 0).x ∧ (lissajous ⟨0, 1, 0, 0⟩ 0).x ≤ 1)
      ∧ (-1 ≤ (lissajous ⟨0, 1, 0, 0⟩ 0).y ∧ (lissajous ⟨0, 1, 0, 0⟩ 0).y ≤ 1)
      ∧ (-1 ≤ (lissajous ⟨0, 1, 0, 0⟩ 0).z ∧ (lissajous ⟨0, 1, 0, 0⟩ 0).z ≤ 1))
    ∧ ((sceneUpdate 2 sampleLights 0)[1]?
         = some { sampleLightB with position :=
                    (Vec3.add offset (Vec3.mulV (lissajous sampleLightB.movement 0) scale)) }
        ∧ |(Vec3.add offset (Vec3.mulV (lissajous sampleLightB.movement 0) scale)).x
             - offset.x| ≤ scale.x
        ∧ |(Vec3.add offset (Vec3.mulV (lissajous sampleLightB.movement 0) scale)).y
             - offset.y| ≤ scale.y
        ∧ |(Vec3.add offset (Vec3.mulV (lissajous sampleLightB.movement 0) scale)).z
             - offset.z| ≤ scale.z) :=
  ⟨lights_motion_bounded.1 ⟨0, 1, 0, 0⟩ 0,
   lights_motion_bounded.2 2 sampleLights 0 1 sampleLightB
     (by decide) (by decide) rfl⟩

/-- C5: `UpdateTransformBlock` writes the transposed world-to-view matrix
(48 bytes) at offset 0 and the 4×4 projection matrix (64 bytes) at offset 48;
the two byte ranges are disjoint and contiguous; the transform UBO is bound
exactly once at binding slot 0 during `Init`, and `Scene::Draw` never rebinds
slot 0. -/
theorem transform_block_layout_and_binding :
    updateTransformBlockWrites = [(0, 48), (48, 64)]
    ∧ sizeofMat3x4 = 48 ∧ sizeofMat4x4 = 64
    ∧ Disjoint (Finset.Ico 0 sizeofMat3x4)
        (Finset.Ico sizeofMat3x4 (sizeofMat3x4 + sizeofMat4x4))
    ∧ initBufferCmds.countP
        (fun cmd => cmd == GLCmd.bindBufferBase 0 BufHandle.transformBlock) = 1
    ∧ initBufferCmds.countP isSlot0Bind = 1
    ∧ ∀ (n : Nat) (m w c : Bool), (drawCmds n m w c).countP isSlot0Bind = 0 := by
  refine ⟨by decide, by decide, by decide, by decide, by decide, by decide, ?_⟩
  intro n m w c
  rw [drawCmds, List.countP_append, List.countP_append, countP_flatMap_const]
  have h1 : (framePreambleCmds m w).countP isSlot0Bind = 0 := by
    cases m <;> cases w <;> decide
  have h2 : (perLightCmds c).countP isSlot0Bind = 0 := by
    cases c <;> decide
  simp [h1, h2, isSlot0Bind]

/-- C6: during the shadow-volume pass the stencil test is configured to pass
unconditionally, face culling is disabled, and color and depth writes are
disabled at every shadow-volume draw; the pass re-enables face culling as its
final command, and every light-pass draw again runs with culling enabled. -/
theorem shadow_pass_state (numLights : Nat) (msaa wireframe carmackReverse : Bool) :
    (statesBefore initialGLState
        (drawCmds numLights msaa wireframe carmackReverse)).all shadowDrawOk = true
    ∧ (shadowPassCmds carmackReverse).getLast? = some (.enable .cullFace) := by
  constructor
  · exact all_statesBefore_drawCmds shadowDrawOk
      (by intro m w; cases m <;> cases w <;> decide)
      (by intro c; cases c <;> decide)
      (by intro c; cases c <;> decide)
      (fun _ => rfl)
      numLights msaa wireframe carmackReverse
  · cases carmackReverse <;> rfl

/-- C7: the `LightPass` flag combination equals exactly
`DirectLight ||| AmbientLight`, and `UpdateProgramData` performs the
light-pass-only uniform updates (view position, light color) if and only if
the render pass contains a DirectLight or AmbientLight flag. -/
theorem renderpass_lightpass_flags :
    RenderPass.LightPass = RenderPass.DirectLight ||| RenderPass.AmbientLight
    ∧ ∀ rp : Fin 16,
        ((updateProgramDataFlags rp.val).viewPosAndLightColor = true
          ↔ (rp.val &&& RenderPass.DirectLight ≠ 0
              ∨ rp.val &&& RenderPass.AmbientLight ≠ 0)) := by
  exact ⟨by decide, by decide⟩

/-- C8 counterexample: initializing with numCubes = 5 and numLights = 1
creates exactly ONE light in total, not one hero light plus four random
lights as the claim states. -/
theorem init_five_cubes_one_light_claim_false :
    (sceneInit 5 1 (fun _ => 0) freshScene).lights.length = 1
    ∧ (sceneInit 5 1 (fun _ => 0) freshScene).lights.length ≠ 1 + 4 := by
  have h : (sceneInit 5 1 (fun _ => 0) freshScene).lights.length = 1 := by
    norm_num [sceneInit, freshScene]
  exact ⟨h, by rw [h]; omega⟩

/-- C8 (amended): initializing with numCubes = 5 and numLights = 1 creates
exactly one hero light at the fixed anchor (-3, 3, 0) with color
(10, 10, 10, ambient) and zero further random lights; the first cube is at
(0, 0.5, 0) and the 4 further random cubes lie in x ∈ [-5,5], y ∈ [1,5],
z ∈ [-5,5]. -/
theorem init_five_cubes_one_light (rng : Nat → ℝ)
    (hrng : ∀ k, 0 ≤ rng k ∧ rng k ≤ 1) :
    (sceneInit 5 1 rng freshScene).lights = [heroLight 1]
    ∧ (heroLight 1).position = (⟨-3, 3, 0⟩ : Vec3)
    ∧ (heroLight 1).color = (⟨10, 10, 10, ambientIntentsity 1⟩ : Vec4)
    ∧ (sceneInit 5 1 rng freshScene).cubePositions.length = 5
    ∧ (sceneInit 5 1 rng freshScene).cubePositions.head? = some (⟨0, 0.5, 0⟩ : Vec3)
    ∧ ∀ p ∈ (sceneInit 5 1 rng freshScene).cubePositions.tail,
        (-5 ≤ p.x ∧ p.x ≤ 5) ∧ (1 ≤ p.y ∧ p.y ≤ 5) ∧ (-5 ≤ p.z ∧ p.z ≤ 5) := by
  refine ⟨?_, rfl, rfl, ?_, ?_, ?_⟩
  · norm_num [sceneInit, freshScene]
  · norm_num [sceneInit, freshScene]
    omega
  · norm_num [sceneInit, freshScene]
  · intro p hp
    have : p ∈ (List.range (((5 : Int) - 1).toNat)).map (randomCube rng) := by
      simpa [sceneInit, freshScene] using hp
    obtain ⟨k, _, rfl⟩ := List.mem_map.mp this
    simp only [randomCube]
    exact ⟨getRandom_mem _ _ _ (by norm_num) (hrng _).1 (hrng _).2,
      getRandom_mem _ _ _ (by norm_num) (hrng _).1 (hrng _).2,
      getRandom_mem _ _ _ (by norm_num) (hrng _).1 (hrng _).2⟩

/-- C8 witness: the amended initialization facts at the all-zero random
stream. -/
theorem init_five_cubes_one_light_witness :
    (sceneInit 5 1 (fun _ => 0) freshScene).lights = [heroLight 1]
    ∧ (heroLight 1).position = (⟨-3, 3, 0⟩ : Vec3)
    ∧ (heroLight 1).color = (⟨10, 10, 10, ambientIntentsity 1⟩ : Vec4)
    ∧ (sceneInit 5 1 (fun _ => 0) freshScene).cubePositions.length = 5
    ∧ (sceneInit 5 1 (fun _ => 0) freshScene).cubePositions.head?
        = some (⟨0, 0.5, 0⟩ : Vec3)
    ∧ ∀ p ∈ (sceneInit 5 1 (fun _ => 0) freshScene).cubePositions.tail,
        (-5 ≤ p.x ∧ p.x ≤ 5) ∧ (1 ≤ p.y ∧ p.y ≤ 5) ∧ (-5 ≤ p.z ∧ p.z ≤ 5) :=
  init_five_cubes_one_light (fun _ => 0) (fun _ => ⟨le_refl 0, zero_le_one⟩)

/-- C9: a `Scene::Draw` frame with zero lights still performs the depth
pre-pass (three background quads and the instanced cubes drawn with all color
channels masked off and depth writes on), executes no per-light
stencil/shadow/light command at all, and ends with the color-write mask fully
enabled on all four channels. -/
theorem draw_zero_lights (msaa wireframe carmackReverse : Bool) :
    (drawCmds 0 msaa wireframe carmackReverse).countP
        (fun cmd => cmd == GLCmd.draw .quad RenderPass.DepthPass) = 3
    ∧ (drawCmds 0 msaa wireframe carmackReverse).countP
        (fun cmd => cmd == GLCmd.draw .cubeTriangles RenderPass.DepthPass) = 1
    ∧ (statesBefore initialGLState
        (drawCmds 0 msaa wireframe carmackReverse)).all depthDrawOk = true
    ∧ (drawCmds 0 msaa wireframe carmackReverse).countP isLightLoopCmd = 0
    ∧ (drawCmds 0 msaa wireframe carmackReverse).getLast?
        = some (GLCmd.colorMask true true true true)
    ∧ (runGL initialGLState (drawCmds 0 msaa wireframe carmackReverse)).cmaskR = true
    ∧ (runGL initialGLState (drawCmds 0 msaa wireframe carmackReverse)).cmaskG = true
    ∧ (runGL initialGLState (drawCmds 0 msaa wireframe carmackReverse)).cmaskB = true
    ∧ (runGL initialGLState (drawCmds 0 msaa wireframe carmackReverse)).cmaskA = true := by
  cases msaa <;> cases wireframe <;> cases carmackReverse <;> decide

/-- C10: once a scene is initialized (its generic VAO handle is nonzero), any
further call to `Scene::Init` — classic or spotlight variant — returns
immediately and leaves every scene field unchanged. -/
theorem scene_init_idempotent :
    (∀ (numCubes numLights : Int) (rng : Nat → ℝ) (s : SceneState),
        s.vao ≠ 0 → sceneInit numCubes numLights rng s = s)
    ∧ (∀ (numCubes numLights : Int) (rng : Nat → ℝ) (s : SpotSceneState),
        s.vao ≠ 0 → spotSceneInit numCubes numLights rng s = s) := by
  constructor
  · intro nc nl rng s hs
    rw [sceneInit, if_pos hs]
  · intro nc nl rng s hs
    rw [spotSceneInit, if_pos hs]

/-- C10 witness: re-initializing concrete already-initialized scenes changes
nothing. -/
theorem scene_init_idempotent_witness :
    sceneInit 5 1 (fun _ => 0) initializedScene = initializedScene
    ∧ spotSceneInit 5 1 (fun _ => 0) initializedSpotScene = initializedSpotScene :=
  ⟨scene_init_idempotent.1 5 1 (fun _ => 0) initializedScene (by decide),
   scene_init_idempotent.2 5 1 (fun _ => 0) initializedSpotScene (by decide)⟩

end ShadowVolumes
